import Mathlib

/-!
Shallow embedding of the Foresta DEX pallet (`pallets/dex/src/lib.rs`).

Balances, order ids and block numbers are `u128`-class machine integers in the
runtime; they are embedded as `Nat` with checked operations failing at `2 ^ 128`.
The surrounding call-dispatch substrate gives per-call atomicity, so every
operation is embedded as a function `... → Except DexError DexState`: an
`Except.error` result means the call failed and all its mutations were
discarded (the pre-state is unchanged).

External collaborators (custody ledger, KYC allow-list, asset validator, time
source) are embedded as oracle fields of `Cfg` / explicit arguments; the
custody `transfer` is always permitted to succeed, matching the spec's scope
which treats asset custody as an external collaborator.
-/

/-- Upper bound (exclusive) of the u128 machine integers used for balances and ids. -/
def U128 : Nat := 2 ^ 128

/-- u128 checked addition: `checked_add` in the source. -/
def checked_add (a b : Nat) : Option Nat :=
  if a + b < U128 then some (a + b) else none

/-- u128 checked multiplication: `checked_mul` in the source. -/
def checked_mul (a b : Nat) : Option Nat :=
  if a * b < U128 then some (a * b) else none

/-- u128 checked subtraction: `checked_sub` in the source. -/
def checked_sub (a b : Nat) : Option Nat :=
  if b ≤ a then some (a - b) else none

/-- u128 saturating addition: `saturating_add` in the source. -/
def sat_add (a b : Nat) : Nat := min (a + b) (U128 - 1)

/-- `Percent::mul_ceil`: `p` is parts-per-hundred (0 ≤ p ≤ 100); result is `⌈p·x/100⌉`. -/
def pct_mul_ceil (p x : Nat) : Nat := (p * x + 99) / 100

/-- Lookup in an association list, the embedding of `StorageMap::get`. -/
def alookup {α : Type} : List (Nat × α) → Nat → Option α
  | [], _ => none
  | (k, v) :: rest, key => if k = key then some v else alookup rest key

/-- Insert-or-replace in an association list, the embedding of `StorageMap::insert`. -/
def ainsert {α : Type} : List (Nat × α) → Nat → α → List (Nat × α)
  | [], key, v => [(key, v)]
  | (k, w) :: rest, key, v =>
    if k = key then (key, v) :: rest else (k, w) :: ainsert rest key v

/-- Removal by key from an association list, the embedding of
`StorageMap::remove` / `StorageMap::take`. -/
def aremove {α : Type} : List (Nat × α) → Nat → List (Nat × α)
  | [], _ => []
  | (k, v) :: rest, key =>
    if k = key then aremove rest key else (k, v) :: aremove rest key

/-- `Vec::swap_remove` / `BoundedVec::swap_remove`: removes element `i`,
replacing it by the last element. -/
def swap_remove {α : Type} (l : List α) (i : Nat) : List α :=
  match l.getLast? with
  | none => l
  | some last => (l.set i last).dropLast

/-- `Iterator::position`: index of the first occurrence of `a` in `l`. -/
def list_position : List Nat → Nat → Option Nat
  | [], _ => none
  | x :: rest, a =>
    if x = a then some 0
    else (list_position rest a).map (· + 1)

/-- `OrderInfo` (sell order record) from `types.rs`; shape as used by `lib.rs`
and the spec's data model. -/
structure OrderInfo where
  owner : Nat
  units : Nat
  price_per_unit : Nat
  asset_id : Nat
deriving DecidableEq, Repr

/-- `PaymentInfo` (payment attestation record) from `types.rs`; shape as used
by `lib.rs` and the spec's data model. -/
structure PaymentInfo where
  chain_id : Nat
  tx_proof : List Nat
  validators : List Nat
deriving DecidableEq, Repr

/-- `BuyOrderInfo` from `types.rs`; shape as used by `lib.rs` and the spec's
data model. -/
structure BuyOrderInfo where
  order_id : Nat
  buyer : Nat
  units : Nat
  price_per_unit : Nat
  asset_id : Nat
  total_fee : Nat
  total_amount : Nat
  expiry_time : Nat
  payment_info : Option PaymentInfo
deriving DecidableEq, Repr

/-- Modelled from the spec: `PayoutExecutedToSeller` is declared in the absent
`types.rs`; `lib.rs` and the spec (§4.5) use only its `amount` field. -/
structure PayoutExecutedToSeller where
  amount : Nat
deriving DecidableEq, Repr

/-- Modelled from the spec: `SellerPayoutPreference` is declared in the absent
`types.rs`; its payload is never inspected by `lib.rs`, so it is embedded as an
uninterpreted value. -/
structure SellerPayoutPreference where
  payload : Nat
deriving DecidableEq, Repr

/-- Modelled from the spec: `UserLevel` is declared in the absent `types.rs`;
`lib.rs` reads only `UserLevel::KYCLevel1` ("everyone is considered KYC level 1"). -/
inductive UserLevel where
  | kycLevel1
deriving DecidableEq, Repr

/-- The pallet's `Error` enum, plus `ExternalError` for propagated failures of
external collaborators (e.g. `retire_credits`). -/
inductive DexError where
  | OrderIdOverflow
  | InvalidOrderId
  | InvalidOrderOwner
  | InvalidAssetId
  | OrderUnitsOverflow
  | InsufficientCurrency
  | BelowMinimumPrice
  | BelowMinimumUnits
  | ArithmeticError
  | AssetNotPermitted
  | SellerAndBuyerCannotBeSame
  | CannotSetMoreThanMaxPaymentFee
  | FeeExceedsUserLimit
  | CannotSetMoreThanMaxPurchaseFee
  | NotAuthorised
  | ValidatorAccountAlreadyExists
  | TooManyValidatorAccounts
  | ChainIdMismatch
  | TxProofMismatch
  | KYCAuthorisationFailed
  | DuplicateValidation
  | NotSellerPayoutAuthority
  | SellerPayoutAuthorityNotSet
  | NoReceivables
  | ReceivableLessThanPayment
  | OpenOrderLimitExceeded
  | UserOpenOrderUnitsAllowedExceeded
  | UserOpenOrderUnitsLimtNotFound
  | MinValidatorsCannotBeZero
  | ExternalError
deriving DecidableEq, Repr

/-- The pallet's `Event` enum (fields in source order). -/
inductive DexEvent where
  | SellOrderCreated (order_id asset_id project_id group_id units price_per_unit owner : Nat)
  | SellOrderCancelled (order_id seller : Nat)
  | BuyOrderCreated (order_id sell_order_id units project_id group_id price_per_unit
      fees_paid total_amount seller buyer : Nat)
  | ValidatorAccountAdded (account_id : Nat)
  | ValidatorAccountRemoved (account_id : Nat)
  | BuyOrderPaymentValidated (order_id chain_id validator : Nat)
  | BuyOrderFilled (order_id sell_order_id units project_id group_id price_per_unit
      fees_paid seller buyer : Nat)
  | SellerPayoutPreferenceSet (seller : Nat) (preference : Option SellerPayoutPreference)
  | SellerPayoutAuthoritySet (authority : Nat)
  | SellerPayoutExecuted (seller : Nat) (payout : PayoutExecutedToSeller)
  | BuyOrderExpired (order_id sell_order_id units buyer : Nat)
  | UserOpenOrderUnitsLimitUpdated (level : UserLevel) (limit : Nat)
  | BuyOrdersByUserCleared (user : Nat)
deriving DecidableEq, Repr

/-- The pallet's persisted storage: the six keyed maps, the scalar
configuration values and the validator set, plus the emitted event log. -/
structure DexState where
  order_count : Nat
  buy_order_count : Nat
  payment_fees : Nat
  purchase_fees : Nat
  orders : List (Nat × OrderInfo)
  buy_orders : List (Nat × BuyOrderInfo)
  validator_accounts : List Nat
  min_payment_validations : Nat
  seller_receivables : List (Nat × Nat)
  seller_payout_authority : Option Nat
  seller_payout_preferences : List (Nat × SellerPayoutPreference)
  buy_orders_by_user : List (Nat × List (Nat × Nat))
  user_open_order_units_allowed : Option Nat
  events : List DexEvent
deriving DecidableEq, Repr

/-- The pallet `Config` constants together with the external collaborator
oracles (KYC allow-list, asset validator, retirement outcome). -/
structure Cfg where
  kyc_approved : Nat → Bool
  get_project_details : Nat → Option (Nat × Nat)
  retire_ok : Nat → Nat → Nat → Nat → Option (List Nat) → Bool
  min_units_to_create_sell_order : Nat
  min_price_per_unit : Nat
  max_payment_fee : Nat
  max_purchase_fee : Nat
  max_validators : Nat
  max_tx_hash_len : Nat
  max_open_orders_per_user : Nat
  buy_order_expiry_time : Nat

/-- Genesis storage: empty maps, zero counters, `DefaultMinPaymentValidators = 2`. -/
def init_state : DexState where
  order_count := 0
  buy_order_count := 0
  payment_fees := 0
  purchase_fees := 0
  orders := []
  buy_orders := []
  validator_accounts := []
  min_payment_validations := 2
  seller_receivables := []
  seller_payout_authority := none
  seller_payout_preferences := []
  buy_orders_by_user := []
  user_open_order_units_allowed := none
  events := []

/-- `create_sell_order` (lib.rs 454-500): list `units` of `asset_id` at
`price_per_unit`; the custody transfer seller → pallet is an external
collaborator and is modelled as succeeding. -/
def create_sell_order (cfg : Cfg) (s : DexState)
    (seller asset_id units price_per_unit : Nat) : Except DexError DexState :=
  if ¬ cfg.kyc_approved seller then .error .KYCAuthorisationFailed else
  match cfg.get_project_details asset_id with
  | none => .error .AssetNotPermitted
  | some (project_id, group_id) =>
    if ¬ (units ≥ cfg.min_units_to_create_sell_order) then .error .BelowMinimumUnits else
    if ¬ (price_per_unit ≥ cfg.min_price_per_unit) then .error .BelowMinimumPrice else
    match checked_add s.order_count 1 with
    | none => .error .OrderIdOverflow
    | some next_order_id =>
      .ok { s with
        order_count := next_order_id,
        orders := ainsert s.orders s.order_count
          { owner := seller, units := units, price_per_unit := price_per_unit,
            asset_id := asset_id },
        events := s.events ++ [.SellOrderCreated s.order_count asset_id project_id
          group_id units price_per_unit seller] }

/-- `cancel_sell_order` (lib.rs 505-524): remove the order and return its
units to the owner (custody transfer modelled as succeeding). -/
def cancel_sell_order (s : DexState) (seller order_id : Nat) :
    Except DexError DexState :=
  match alookup s.orders order_id with
  | none => .error .InvalidOrderId
  | some order =>
    if ¬ (seller = order.owner) then .error .InvalidOrderOwner else
    .ok { s with
      orders := aremove s.orders order_id,
      events := s.events ++ [.SellOrderCancelled order_id seller] }

/-- `create_buy_order` (lib.rs 530-658): reserve `units` against sell order
`order_id`, computing fees and recording buyer exposure. -/
def create_buy_order (cfg : Cfg) (s : DexState)
    (buyer order_id asset_id units max_fee current_block : Nat) :
    Except DexError DexState :=
  if ¬ cfg.kyc_approved buyer then .error .KYCAuthorisationFailed else
  if units = 0 then .ok s else
  match alookup s.orders order_id with
  | none => .error .InvalidOrderId
  | some order =>
    if ¬ (asset_id = order.asset_id) then .error .InvalidAssetId else
    if buyer = order.owner then .error .SellerAndBuyerCannotBeSame else
    if ¬ (units ≤ order.units) then .error .OrderUnitsOverflow else
    match cfg.get_project_details asset_id with
    | none => .error .AssetNotPermitted
    | some (project_id, group_id) =>
      match checked_sub order.units units with
      | none => .error .OrderUnitsOverflow
      | some new_units =>
        match checked_mul order.price_per_unit units with
        | none => .error .ArithmeticError
        | some required_currency =>
          match checked_add (pct_mul_ceil s.payment_fees required_currency) s.purchase_fees with
          | none => .error .OrderUnitsOverflow
          | some total_fee =>
            match checked_add total_fee required_currency with
            | none => .error .OrderUnitsOverflow
            | some total_amount =>
              if ¬ (max_fee ≥ total_fee) then .error .FeeExceedsUserLimit else
              match checked_add s.buy_order_count 1 with
              | none => .error .OrderIdOverflow
              | some next_buy_order_id =>
                match checked_add current_block cfg.buy_order_expiry_time with
                | none => .error .OrderIdOverflow
                | some expiry_time =>
                  match s.user_open_order_units_allowed with
                  | none => .error .UserOpenOrderUnitsLimtNotFound
                  | some allowed_open_order_units =>
                    if ¬ (sat_add (((alookup s.buy_orders_by_user buyer).getD []).foldl
                          (fun sum val => sum + val.2) 0) units ≤ allowed_open_order_units) then
                      .error .UserOpenOrderUnitsAllowedExceeded else
                    if ¬ (((alookup s.buy_orders_by_user buyer).getD []).length <
                          cfg.max_open_orders_per_user) then
                      .error .OpenOrderLimitExceeded else
                    .ok { s with
                      buy_order_count := next_buy_order_id,
                      orders := ainsert s.orders order_id { order with units := new_units },
                      buy_orders := ainsert s.buy_orders s.buy_order_count
                        { order_id := order_id, buyer := buyer, units := units,
                          price_per_unit := order.price_per_unit, asset_id := asset_id,
                          total_fee := total_fee, total_amount := total_amount,
                          expiry_time := expiry_time, payment_info := none },
                      buy_orders_by_user := ainsert s.buy_orders_by_user buyer
                        (((alookup s.buy_orders_by_user buyer).getD []) ++
                          [(s.buy_order_count, units)]),
                      events := s.events ++ [.BuyOrderCreated s.buy_order_count order_id units
                        project_id group_id order.price_per_unit total_fee total_amount
                        order.owner buyer] }

/-- `validate_buy_order` (lib.rs 695-833): record a validator attestation for
buy order `order_id`; once the attestation count reaches
`min_payment_validations`, settle synchronously (asset release modelled as
succeeding, retirement via the `retire_ok` oracle). -/
def validate_buy_order (cfg : Cfg) (s : DexState) (sender order_id chain_id : Nat)
    (tx_proof : List Nat) (retirement_reason : Option (List Nat)) :
    Except DexError DexState :=
  if ¬ (sender ∈ s.validator_accounts) then .error .NotAuthorised else
  match alookup s.buy_orders order_id with
  | none => .error .InvalidOrderId
  | some order =>
    match order.payment_info with
    | some payment_info =>
      if ¬ (payment_info.chain_id = chain_id) then .error .ChainIdMismatch else
      if ¬ (payment_info.tx_proof = tx_proof) then .error .TxProofMismatch else
      if sender ∈ payment_info.validators then .error .DuplicateValidation else
      if ¬ (payment_info.validators.length < cfg.max_validators) then
        .error .TooManyValidatorAccounts else
      if payment_info.validators.length + 1 ≥ s.min_payment_validations then
        match alookup s.orders order.order_id with
        | none => .error .InvalidOrderId
        | some sell_order =>
          match checked_sub order.total_amount order.total_fee with
          | none => .error .OrderUnitsOverflow
          | some amount_to_seller =>
            match checked_add ((alookup s.seller_receivables sell_order.owner).getD 0)
                amount_to_seller with
            | none => .error .OrderUnitsOverflow
            | some new_receivables =>
              match cfg.get_project_details order.asset_id with
              | none => .error .AssetNotPermitted
              | some (project_id, group_id) =>
                if chain_id = 0 ∧
                    ¬ cfg.retire_ok order.buyer project_id group_id order.units
                      retirement_reason then
                  .error .ExternalError
                else
                  .ok { s with
                    buy_orders := aremove s.buy_orders order_id,
                    seller_receivables := ainsert s.seller_receivables sell_order.owner
                      new_receivables,
                    buy_orders_by_user := ainsert s.buy_orders_by_user order.buyer
                      (((alookup s.buy_orders_by_user order.buyer).getD []).filter
                        (fun x => decide (x ≠ (order_id, order.units)))),
                    events := s.events ++
                      [.BuyOrderPaymentValidated order_id chain_id sender,
                       .BuyOrderFilled order_id order.order_id order.units project_id
                         group_id order.price_per_unit order.total_fee sell_order.owner
                         order.buyer] }
      else
        let new_payment_info :=
          { payment_info with validators := payment_info.validators ++ [sender] }
        .ok { s with
          buy_orders := ainsert s.buy_orders order_id
            { order with payment_info := some new_payment_info },
          events := s.events ++ [.BuyOrderPaymentValidated order_id chain_id sender] }
    | none =>
      if ¬ (0 < cfg.max_validators) then .error .TooManyValidatorAccounts else
      let new_payment_info : PaymentInfo :=
        { chain_id := chain_id, tx_proof := tx_proof, validators := [sender] }
      .ok { s with
        buy_orders := ainsert s.buy_orders order_id
          { order with payment_info := some new_payment_info },
        events := s.events ++ [.BuyOrderPaymentValidated order_id chain_id sender] }

/-- `force_set_payment_fee` (lib.rs 664-672); the `ForceOrigin` check is
modelled by only invoking this from authorised steps. -/
def force_set_payment_fee (cfg : Cfg) (s : DexState) (payment_fee : Nat) :
    Except DexError DexState :=
  if ¬ (payment_fee ≤ cfg.max_payment_fee) then .error .CannotSetMoreThanMaxPaymentFee
  else .ok { s with payment_fees := payment_fee }

/-- `force_set_purchase_fee` (lib.rs 678-689). -/
def force_set_purchase_fee (cfg : Cfg) (s : DexState) (purchase_fee : Nat) :
    Except DexError DexState :=
  if ¬ (purchase_fee ≤ cfg.max_purchase_fee) then .error .CannotSetMoreThanMaxPurchaseFee
  else .ok { s with purchase_fees := purchase_fee }

/-- `force_add_validator_account` (lib.rs 839-859): duplicate add errors. -/
def force_add_validator_account (cfg : Cfg) (s : DexState) (account_id : Nat) :
    Except DexError DexState :=
  if account_id ∈ s.validator_accounts then .error .ValidatorAccountAlreadyExists else
  if ¬ (s.validator_accounts.length < cfg.max_validators) then
    .error .TooManyValidatorAccounts else
  .ok { s with
    validator_accounts := s.validator_accounts ++ [account_id],
    events := s.events ++ [.ValidatorAccountAdded account_id] }

/-- `force_remove_validator_account` (lib.rs 864-878): removal of an absent
account is a silent no-op; present accounts are removed via `swap_remove`. -/
def force_remove_validator_account (s : DexState) (account_id : Nat) :
    Except DexError DexState :=
  match list_position s.validator_accounts account_id with
  | none => .ok s
  | some index =>
    .ok { s with
      validator_accounts := swap_remove s.validator_accounts index,
      events := s.events ++ [.ValidatorAccountRemoved account_id] }

/-- `force_set_min_validations` (lib.rs 883-891). -/
def force_set_min_validations (s : DexState) (min_validators : Nat) :
    Except DexError DexState :=
  if min_validators = 0 then .error .MinValidatorsCannotBeZero
  else .ok { s with min_payment_validations := min_validators }

/-- `force_set_seller_payout_authority` (lib.rs 917-925). -/
def force_set_seller_payout_authority (s : DexState) (authority : Nat) :
    Except DexError DexState :=
  .ok { s with
    seller_payout_authority := some authority,
    events := s.events ++ [.SellerPayoutAuthoritySet authority] }

/-- `set_seller_payout_preference` (lib.rs 951-963): unconditional
upsert/removal keyed by the signed seller. -/
def set_seller_payout_preference (s : DexState) (seller : Nat)
    (preference : Option SellerPayoutPreference) : Except DexError DexState :=
  match preference with
  | some p =>
    .ok { s with
      seller_payout_preferences := ainsert s.seller_payout_preferences seller p,
      events := s.events ++ [.SellerPayoutPreferenceSet seller (some p)] }
  | none =>
    .ok { s with
      seller_payout_preferences := aremove s.seller_payout_preferences seller,
      events := s.events ++ [.SellerPayoutPreferenceSet seller none] }

/-- `record_payment_to_seller` (lib.rs 999-1022): authority-confirmed
deduction from the seller's receivable. -/
def record_payment_to_seller (s : DexState) (authority seller : Nat)
    (payout : PayoutExecutedToSeller) : Except DexError DexState :=
  match s.seller_payout_authority with
  | none => .error .SellerPayoutAuthorityNotSet
  | some expected_authority =>
    if ¬ (authority = expected_authority) then .error .NotSellerPayoutAuthority else
    match alookup s.seller_receivables seller with
    | none => .error .NoReceivables
    | some receivable =>
      match checked_sub receivable payout.amount with
      | none => .error .ReceivableLessThanPayment
      | some new_receivable =>
        .ok { s with
          seller_receivables := ainsert s.seller_receivables seller new_receivable,
          events := s.events ++ [.SellerPayoutExecuted seller payout] }

/-- `force_set_open_order_allowed_limits` (lib.rs 1026-1035); the single
`UserLevel` in use is `KYCLevel1`, so the storage map is an `Option Nat`. -/
def force_set_open_order_allowed_limits (s : DexState) (level : UserLevel) (limit : Nat) :
    Except DexError DexState :=
  .ok { s with
    user_open_order_units_allowed := some limit,
    events := s.events ++ [.UserOpenOrderUnitsLimitUpdated level limit] }

/-- `force_clear_buy_orders_per_user` (lib.rs 1040-1048). -/
def force_clear_buy_orders_per_user (s : DexState) (user : Nat) :
    Except DexError DexState :=
  .ok { s with
    buy_orders_by_user := aremove s.buy_orders_by_user user,
    events := s.events ++ [.BuyOrdersByUserCleared user] }

/-- Best-effort credit of an expired buy order's units back onto its sell
order (lib.rs 386-404): on a missing sell order or on overflow the
`try_mutate` fails, is only logged, and the orders map is left unchanged. -/
def credit_back (orders : List (Nat × OrderInfo)) (bo : BuyOrderInfo) :
    List (Nat × OrderInfo) :=
  match alookup orders bo.order_id with
  | none => orders
  | some sell_order =>
    match checked_add sell_order.units bo.units with
    | none => orders
    | some new_units =>
      ainsert orders bo.order_id { sell_order with units := new_units }

/-- Effect of removing one expired buy order inside the `on_idle` sweep
(lib.rs 381-435): take the buy order, credit units back onto the sell order
(best-effort), drop the buyer's exposure entry, emit `BuyOrderExpired`. -/
def expire_buy_order (s : DexState) (key : Nat) (bo : BuyOrderInfo) : DexState :=
  { s with
    buy_orders := aremove s.buy_orders key,
    orders := credit_back s.orders bo,
    buy_orders_by_user := ainsert s.buy_orders_by_user bo.buyer
      (((alookup s.buy_orders_by_user bo.buyer).getD []).filter
        (fun x => decide (x ≠ (key, bo.units)))),
    events := s.events ++ [.BuyOrderExpired key bo.order_id bo.units bo.buyer] }

/-- Loop body of `on_idle` (lib.rs 372-444): scan the buy orders, charging one
read per entry; remove the first expired one and stop, or stop when the
remaining weight budget is exhausted. -/
def on_idle_go (block read_weight write_weight : Nat) :
    List (Nat × BuyOrderInfo) → DexState → Nat → DexState × Nat
  | [], s, w => (s, w)
  | (key, bo) :: rest, s, w =>
    if bo.expiry_time < block then
      (expire_buy_order s key bo, w - read_weight - write_weight)
    else if w - read_weight ≤ read_weight then (s, w - read_weight)
    else on_idle_go block read_weight write_weight rest s (w - read_weight)

/-- `on_idle` (lib.rs 370-446): the bounded maintenance sweep; `Nat`
subtraction is the source's `saturating_sub` on weights. -/
def on_idle (s : DexState) (block remaining_weight read_weight write_weight : Nat) :
    DexState × Nat :=
  on_idle_go block read_weight write_weight s.buy_orders s remaining_weight

/-- Inserted keys are found by lookup. -/
theorem alookup_ainsert_self {α : Type} (l : List (Nat × α)) (k : Nat) (v : α) :
    alookup (ainsert l k v) k = some v := by
  induction l with
  | nil => simp [ainsert, alookup]
  | cons hd tl ih =>
    obtain ⟨k', v'⟩ := hd
    by_cases h : k' = k
    · simp [ainsert, h, alookup]
    · simp [ainsert, h, alookup, ih]

/-- Insertion does not affect lookups of other keys. -/
theorem alookup_ainsert_ne {α : Type} (l : List (Nat × α)) (k k' : Nat) (v : α)
    (h : k' ≠ k) : alookup (ainsert l k v) k' = alookup l k' := by
  have h2 : ¬ (k = k') := fun hh => h hh.symm
  induction l with
  | nil => simp [ainsert, alookup, h2]
  | cons hd tl ih =>
    obtain ⟨k0, v0⟩ := hd
    by_cases hk : k0 = k
    · subst hk
      simp [ainsert, alookup, h2]
    · simp [ainsert, hk, alookup, ih]

/-- Removed keys are not found by lookup. -/
theorem alookup_aremove_self {α : Type} (l : List (Nat × α)) (k : Nat) :
    alookup (aremove l k) k = none := by
  induction l with
  | nil => rfl
  | cons hd tl ih =>
    obtain ⟨k0, v0⟩ := hd
    by_cases h : k0 = k
    · simpa [aremove, h] using ih
    · simp [aremove, h, alookup, ih]

/-- Removal does not affect lookups of other keys. -/
theorem alookup_aremove_ne {α : Type} (l : List (Nat × α)) (k k' : Nat)
    (h : k' ≠ k) : alookup (aremove l k) k' = alookup l k' := by
  have h2 : ¬ (k = k') := fun hh => h hh.symm
  induction l with
  | nil => rfl
  | cons hd tl ih =>
    obtain ⟨k0, v0⟩ := hd
    by_cases hk : k0 = k
    · subst hk
      simp [aremove, alookup, h2, ih]
    · simp [aremove, hk, alookup, ih]

/-- Shifting the accumulator out of the exposure-units fold. -/
theorem foldl_units_shift (l : List (Nat × Nat)) (a : Nat) :
    l.foldl (fun sum val => sum + val.2) a = a + l.foldl (fun sum val => sum + val.2) 0 := by
  induction l generalizing a with
  | nil => simp
  | cons hd tl ih =>
    simp only [List.foldl_cons]
    rw [ih (a + hd.2), ih (0 + hd.2)]
    omega

/-- Filtering entries can only lower the exposure-units sum. -/
theorem foldl_units_filter_le (l : List (Nat × Nat)) (p : Nat × Nat → Bool) :
    (l.filter p).foldl (fun sum val => sum + val.2) 0 ≤
      l.foldl (fun sum val => sum + val.2) 0 := by
  induction l with
  | nil => simp
  | cons hd tl ih =>
    cases hp : p hd with
    | true =>
      simp only [List.filter_cons, hp, List.foldl_cons, if_pos]
      rw [foldl_units_shift (tl.filter p), foldl_units_shift tl]
      omega
    | false =>
      have : ¬ (p hd = true) := by simp [hp]
      simp only [List.filter_cons, if_neg this, List.foldl_cons]
      rw [foldl_units_shift tl]
      omega

/-- Appending one entry adds its units to the exposure-units sum. -/
theorem foldl_units_append (l : List (Nat × Nat)) (k u : Nat) :
    (l ++ [(k, u)]).foldl (fun sum val => sum + val.2) 0 =
      l.foldl (fun sum val => sum + val.2) 0 + u := by
  rw [List.foldl_append]
  rfl

/-- A saturating add bounded by a limit strictly below the saturation point
bounds the exact sum. -/
theorem sat_add_le_of_lt (a b c : Nat) (h : sat_add a b ≤ c) (hc : c < U128 - 1) :
    a + b ≤ c := by
  simp only [sat_add, min_def] at h
  split at h <;> omega

/-- Exposure-index units sum of a buyer (the fold at lib.rs 603-604). -/
def exposure_sum (s : DexState) (buyer : Nat) : Nat :=
  ((alookup s.buy_orders_by_user buyer).getD []).foldl (fun sum val => sum + val.2) 0

/-- Every buyer's exposure-index sum respects the configured tier limit; with
no limit configured, every exposure index is empty-summed. -/
def exposure_within_limit (s : DexState) : Prop :=
  ∀ buyer,
    (s.user_open_order_units_allowed = none → exposure_sum s buyer = 0) ∧
    (∀ limit, s.user_open_order_units_allowed = some limit → exposure_sum s buyer ≤ limit)

/-- Strengthened exposure invariant: within the limit, and the configured
limit is strictly below the u128 saturation point. -/
def exposure_good (s : DexState) : Prop :=
  exposure_within_limit s ∧
  ∀ limit, s.user_open_order_units_allowed = some limit → limit < U128 - 1

/-- The exposure sum only depends on the exposure index. -/
theorem exposure_sum_congr {s s' : DexState}
    (h : s'.buy_orders_by_user = s.buy_orders_by_user) (buyer : Nat) :
    exposure_sum s' buyer = exposure_sum s buyer := by
  simp [exposure_sum, h]

/-- The exposure invariant is preserved whenever the limit is unchanged and no
buyer's exposure sum grows. -/
theorem exposure_good_mono {s s' : DexState}
    (hlim : s'.user_open_order_units_allowed = s.user_open_order_units_allowed)
    (hsum : ∀ buyer, exposure_sum s' buyer ≤ exposure_sum s buyer)
    (hg : exposure_good s) : exposure_good s' := by
  obtain ⟨hw, hs⟩ := hg
  refine ⟨fun buyer => ⟨fun hn => ?_, fun limit hl => ?_⟩, fun limit hl => ?_⟩
  · have h1 := (hw buyer).1 (hlim ▸ hn)
    have h2 := hsum buyer
    omega
  · have h1 := (hw buyer).2 limit (hlim ▸ hl)
    have h2 := hsum buyer
    omega
  · exact hs limit (hlim ▸ hl)

/-- States reachable from genesis by the pallet's operations, where every
admin tier-limit change sets the limit at or above every buyer's current
exposure sum and strictly below the u128 saturation point. -/
inductive Reach (cfg : Cfg) : DexState → Prop where
  | init : Reach cfg init_state
  | step_create_sell_order {s s' : DexState} {seller asset_id units price : Nat} :
      Reach cfg s → create_sell_order cfg s seller asset_id units price = .ok s' →
      Reach cfg s'
  | step_cancel_sell_order {s s' : DexState} {seller order_id : Nat} :
      Reach cfg s → cancel_sell_order s seller order_id = .ok s' → Reach cfg s'
  | step_create_buy_order {s s' : DexState}
      {buyer order_id asset_id units max_fee current_block : Nat} :
      Reach cfg s →
      create_buy_order cfg s buyer order_id asset_id units max_fee current_block = .ok s' →
      Reach cfg s'
  | step_validate_buy_order {s s' : DexState} {sender order_id chain_id : Nat}
      {tx_proof : List Nat} {retirement_reason : Option (List Nat)} :
      Reach cfg s →
      validate_buy_order cfg s sender order_id chain_id tx_proof retirement_reason = .ok s' →
      Reach cfg s'
  | step_force_set_payment_fee {s s' : DexState} {fee : Nat} :
      Reach cfg s → force_set_payment_fee cfg s fee = .ok s' → Reach cfg s'
  | step_force_set_purchase_fee {s s' : DexState} {fee : Nat} :
      Reach cfg s → force_set_purchase_fee cfg s fee = .ok s' → Reach cfg s'
  | step_force_add_validator_account {s s' : DexState} {account_id : Nat} :
      Reach cfg s → force_add_validator_account cfg s account_id = .ok s' → Reach cfg s'
  | step_force_remove_validator_account {s s' : DexState} {account_id : Nat} :
      Reach cfg s → force_remove_validator_account s account_id = .ok s' → Reach cfg s'
  | step_force_set_min_validations {s s' : DexState} {m : Nat} :
      Reach cfg s → force_set_min_validations s m = .ok s' → Reach cfg s'
  | step_force_set_seller_payout_authority {s s' : DexState} {authority : Nat} :
      Reach cfg s → force_set_seller_payout_authority s authority = .ok s' → Reach cfg s'
  | step_set_seller_payout_preference {s s' : DexState} {seller : Nat}
      {preference : Option SellerPayoutPreference} :
      Reach cfg s → set_seller_payout_preference s seller preference = .ok s' → Reach cfg s'
  | step_record_payment_to_seller {s s' : DexState} {authority seller : Nat}
      {payout : PayoutExecutedToSeller} :
      Reach cfg s → record_payment_to_seller s authority seller payout = .ok s' →
      Reach cfg s'
  | step_force_set_open_order_allowed_limits {s s' : DexState} {level : UserLevel}
      {limit : Nat} :
      Reach cfg s →
      (∀ buyer, exposure_sum s buyer ≤ limit) →
      limit < U128 - 1 →
      force_set_open_order_allowed_limits s level limit = .ok s' → Reach cfg s'
  | step_force_clear_buy_orders_per_user {s s' : DexState} {user : Nat} :
      Reach cfg s → force_clear_buy_orders_per_user s user = .ok s' → Reach cfg s'
  | step_on_idle {s : DexState} {block w rw ww : Nat} :
      Reach cfg s → Reach cfg (on_idle s block w rw ww).1

/-- `create_sell_order` leaves the exposure index and tier limit unchanged. -/
theorem create_sell_order_exposure_frame {cfg : Cfg} {s s' : DexState}
    {seller asset_id units price : Nat}
    (h : create_sell_order cfg s seller asset_id units price = .ok s') :
    s'.buy_orders_by_user = s.buy_orders_by_user ∧
    s'.user_open_order_units_allowed = s.user_open_order_units_allowed := by
  unfold create_sell_order at h
  repeat' split at h
  all_goals cases h
  all_goals exact ⟨rfl, rfl⟩

/-- `cancel_sell_order` leaves the exposure index and tier limit unchanged. -/
theorem cancel_sell_order_exposure_frame {s s' : DexState} {seller order_id : Nat}
    (h : cancel_sell_order s seller order_id = .ok s') :
    s'.buy_orders_by_user = s.buy_orders_by_user ∧
    s'.user_open_order_units_allowed = s.user_open_order_units_allowed := by
  unfold cancel_sell_order at h
  repeat' split at h
  all_goals cases h
  all_goals exact ⟨rfl, rfl⟩

/-- The four fee/validator/authority setters leave the exposure index and tier
limit unchanged. -/
theorem force_set_payment_fee_exposure_frame {cfg : Cfg} {s s' : DexState} {fee : Nat}
    (h : force_set_payment_fee cfg s fee = .ok s') :
    s'.buy_orders_by_user = s.buy_orders_by_user ∧
    s'.user_open_order_units_allowed = s.user_open_order_units_allowed := by
  unfold force_set_payment_fee at h
  repeat' split at h
  all_goals cases h
  all_goals exact ⟨rfl, rfl⟩

theorem force_set_purchase_fee_exposure_frame {cfg : Cfg} {s s' : DexState} {fee : Nat}
    (h : force_set_purchase_fee cfg s fee = .ok s') :
    s'.buy_orders_by_user = s.buy_orders_by_user ∧
    s'.user_open_order_units_allowed = s.user_open_order_units_allowed := by
  unfold force_set_purchase_fee at h
  repeat' split at h
  all_goals cases h
  all_goals exact ⟨rfl, rfl⟩

theorem force_add_validator_account_exposure_frame {cfg : Cfg} {s s' : DexState}
    {account_id : Nat} (h : force_add_validator_account cfg s account_id = .ok s') :
    s'.buy_orders_by_user = s.buy_orders_by_user ∧
    s'.user_open_order_units_allowed = s.user_open_order_units_allowed := by
  unfold force_add_validator_account at h
  repeat' split at h
  all_goals cases h
  all_goals exact ⟨rfl, rfl⟩

theorem force_remove_validator_account_exposure_frame {s s' : DexState}
    {account_id : Nat} (h : force_remove_validator_account s account_id = .ok s') :
    s'.buy_orders_by_user = s.buy_orders_by_user ∧
    s'.user_open_order_units_allowed = s.user_open_order_units_allowed := by
  unfold force_remove_validator_account at h
  repeat' split at h
  all_goals cases h
  all_goals exact ⟨rfl, rfl⟩

theorem force_set_min_validations_exposure_frame {s s' : DexState} {m : Nat}
    (h : force_set_min_validations s m = .ok s') :
    s'.buy_orders_by_user = s.buy_orders_by_user ∧
    s'.user_open_order_units_allowed = s.user_open_order_units_allowed := by
  unfold force_set_min_validations at h
  repeat' split at h
  all_goals cases h
  all_goals exact ⟨rfl, rfl⟩

theorem force_set_seller_payout_authority_exposure_frame {s s' : DexState}
    {authority : Nat} (h : force_set_seller_payout_authority s authority = .ok s') :
    s'.buy_orders_by_user = s.buy_orders_by_user ∧
    s'.user_open_order_units_allowed = s.user_open_order_units_allowed := by
  unfold force_set_seller_payout_authority at h
  cases h
  exact ⟨rfl, rfl⟩

theorem set_seller_payout_preference_exposure_frame {s s' : DexState} {seller : Nat}
    {preference : Option SellerPayoutPreference}
    (h : set_seller_payout_preference s seller preference = .ok s') :
    s'.buy_orders_by_user = s.buy_orders_by_user ∧
    s'.user_open_order_units_allowed = s.user_open_order_units_allowed := by
  unfold set_seller_payout_preference at h
  repeat' split at h
  all_goals cases h
  all_goals exact ⟨rfl, rfl⟩

theorem record_payment_to_seller_exposure_frame {s s' : DexState}
    {authority seller : Nat} {payout : PayoutExecutedToSeller}
    (h : record_payment_to_seller s authority seller payout = .ok s') :
    s'.buy_orders_by_user = s.buy_orders_by_user ∧
    s'.user_open_order_units_allowed = s.user_open_order_units_allowed := by
  unfold record_payment_to_seller at h
  repeat' split at h
  all_goals cases h
  all_goals exact ⟨rfl, rfl⟩

/-- A successful `create_buy_order` leaves the tier limit unchanged and either
changes nothing (the `units == 0` no-op) or appends one checked exposure entry
for the buyer. -/
theorem create_buy_order_exposure {cfg : Cfg} {s s' : DexState}
    {buyer order_id asset_id units max_fee current_block : Nat}
    (h : create_buy_order cfg s buyer order_id asset_id units max_fee current_block
      = .ok s') :
    s'.user_open_order_units_allowed = s.user_open_order_units_allowed ∧
    ((units = 0 ∧ s' = s) ∨
      ∃ allowed, s.user_open_order_units_allowed = some allowed ∧
        sat_add (exposure_sum s buyer) units ≤ allowed ∧
        s'.buy_orders_by_user = ainsert s.buy_orders_by_user buyer
          (((alookup s.buy_orders_by_user buyer).getD []) ++ [(s.buy_order_count, units)])) := by
  unfold create_buy_order at h
  repeat' split at h
  all_goals cases h
  · exact ⟨rfl, Or.inl ⟨by assumption, rfl⟩⟩
  · rename_i allowed heq hsat hlen
    refine ⟨rfl, Or.inr ⟨allowed, heq, ?_, rfl⟩⟩
    simpa [exposure_sum] using not_not.mp hsat

/-- Replacing a buyer's exposure list by a filtered version of it never raises
any exposure sum. -/
theorem exposure_sum_ainsert_filter_le (l : List (Nat × List (Nat × Nat))) (b : Nat)
    (p : Nat × Nat → Bool) (buyer : Nat) :
    ((alookup (ainsert l b (((alookup l b).getD []).filter p)) buyer).getD []).foldl
        (fun sum val => sum + val.2) 0 ≤
      ((alookup l buyer).getD []).foldl (fun sum val => sum + val.2) 0 := by
  by_cases hb : buyer = b
  · subst hb
    rw [alookup_ainsert_self]
    exact foldl_units_filter_le _ _
  · rw [alookup_ainsert_ne _ _ _ _ hb]

/-- A successful `validate_buy_order` leaves the tier limit unchanged and
never raises any buyer's exposure sum (settlement only filters entries out). -/
theorem validate_buy_order_exposure {cfg : Cfg} {s s' : DexState}
    {sender order_id chain_id : Nat} {tx_proof : List Nat}
    {retirement_reason : Option (List Nat)}
    (h : validate_buy_order cfg s sender order_id chain_id tx_proof retirement_reason
      = .ok s') :
    s'.user_open_order_units_allowed = s.user_open_order_units_allowed ∧
    ∀ buyer, exposure_sum s' buyer ≤ exposure_sum s buyer := by
  unfold validate_buy_order at h
  repeat' split at h
  all_goals cases h
  · refine ⟨rfl, fun buyer => ?_⟩
    simp only [exposure_sum]
    exact exposure_sum_ainsert_filter_le _ _ _ _
  · exact ⟨rfl, fun buyer => le_refl _⟩
  · exact ⟨rfl, fun buyer => le_refl _⟩

/-- `expire_buy_order` leaves the tier limit unchanged and never raises any
buyer's exposure sum. -/
theorem expire_buy_order_exposure (s : DexState) (key : Nat) (bo : BuyOrderInfo) :
    (expire_buy_order s key bo).user_open_order_units_allowed =
      s.user_open_order_units_allowed ∧
    ∀ buyer, exposure_sum (expire_buy_order s key bo) buyer ≤ exposure_sum s buyer := by
  refine ⟨rfl, fun buyer => ?_⟩
  simp only [exposure_sum, expire_buy_order]
  exact exposure_sum_ainsert_filter_le _ _ _ _

/-- `force_clear_buy_orders_per_user` leaves the tier limit unchanged and
never raises any buyer's exposure sum. -/
theorem force_clear_buy_orders_per_user_exposure {s s' : DexState} {user : Nat}
    (h : force_clear_buy_orders_per_user s user = .ok s') :
    s'.user_open_order_units_allowed = s.user_open_order_units_allowed ∧
    ∀ buyer, exposure_sum s' buyer ≤ exposure_sum s buyer := by
  unfold force_clear_buy_orders_per_user at h
  cases h
  refine ⟨rfl, fun buyer => ?_⟩
  simp only [exposure_sum]
  by_cases hb : buyer = user
  · subst hb
    rw [alookup_aremove_self]
    simp
  · rw [alookup_aremove_ne _ _ _ hb]

/-- One `on_idle` pass either leaves the state unchanged or applies the
expiry effect to a single expired buy order from the scanned map. -/
theorem on_idle_go_cases (block rw ww : Nat) (l : List (Nat × BuyOrderInfo))
    (s : DexState) (w : Nat) :
    (on_idle_go block rw ww l s w).1 = s ∨
    ∃ key bo, (key, bo) ∈ l ∧ bo.expiry_time < block ∧
      (on_idle_go block rw ww l s w).1 = expire_buy_order s key bo := by
  induction l generalizing w with
  | nil => exact Or.inl rfl
  | cons hd tl ih =>
    obtain ⟨key, bo⟩ := hd
    by_cases hexp : bo.expiry_time < block
    · exact Or.inr ⟨key, bo, List.mem_cons_self _ _, hexp, by simp [on_idle_go, hexp]⟩
    · by_cases hw : w - rw ≤ rw
      · left
        simp [on_idle_go, hexp, hw]
      · rcases ih (w - rw) with h3 | ⟨k, b, hmem, he, heq⟩
        · left
          simpa [on_idle_go, hexp, hw] using h3
        · exact Or.inr ⟨k, b, List.mem_cons_of_mem _ hmem, he,
            by simpa [on_idle_go, hexp, hw] using heq⟩

/-- Every reachable state (with the tier-limit provisos built into `Reach`)
satisfies the strengthened exposure invariant. -/
theorem reach_exposure_good {cfg : Cfg} {s : DexState} (h : Reach cfg s) :
    exposure_good s := by
  induction h with
  | init =>
    refine ⟨fun buyer => ⟨fun _ => rfl, fun limit hl => ?_⟩, fun limit hl => ?_⟩
    · simp [init_state] at hl
    · simp [init_state] at hl
  | step_create_sell_order _ hok ih =>
    obtain ⟨h1, h2⟩ := create_sell_order_exposure_frame hok
    exact exposure_good_mono h2 (fun b => (exposure_sum_congr h1 b).le) ih
  | step_cancel_sell_order _ hok ih =>
    obtain ⟨h1, h2⟩ := cancel_sell_order_exposure_frame hok
    exact exposure_good_mono h2 (fun b => (exposure_sum_congr h1 b).le) ih
  | step_create_buy_order hr hok ih =>
    rename_i s0 s1 buyer0 oid0 aid0 units0 mf0 blk0
    obtain ⟨hlim, hcase⟩ := create_buy_order_exposure hok
    rcases hcase with ⟨_, rfl⟩ | ⟨allowed, heq, hsat, hbu⟩
    · exact ih
    · obtain ⟨hw, hsmall⟩ := ih
      have hlt : allowed < U128 - 1 := hsmall allowed heq
      have hle := sat_add_le_of_lt _ _ _ hsat hlt
      refine ⟨fun b => ⟨fun hn => ?_, fun limit hl => ?_⟩, fun limit hl => ?_⟩
      · rw [hlim, heq] at hn
        cases hn
      · rw [hlim, heq] at hl
        injection hl with hl
        subst hl
        by_cases hb : b = buyer0
        · subst hb
          have hsum : exposure_sum s1 b = exposure_sum s0 b + units0 := by
            simp only [exposure_sum, hbu]
            rw [alookup_ainsert_self]
            simp [foldl_units_append]
          rw [hsum]
          exact hle
        · have hsum : exposure_sum s1 b = exposure_sum s0 b := by
            simp only [exposure_sum, hbu]
            rw [alookup_ainsert_ne _ _ _ _ hb]
          rw [hsum]
          exact (hw b).2 allowed heq
      · rw [hlim] at hl
        exact hsmall limit hl
  | step_validate_buy_order _ hok ih =>
    obtain ⟨h1, h2⟩ := validate_buy_order_exposure hok
    exact exposure_good_mono h1 h2 ih
  | step_force_set_payment_fee _ hok ih =>
    obtain ⟨h1, h2⟩ := force_set_payment_fee_exposure_frame hok
    exact exposure_good_mono h2 (fun b => (exposure_sum_congr h1 b).le) ih
  | step_force_set_purchase_fee _ hok ih =>
    obtain ⟨h1, h2⟩ := force_set_purchase_fee_exposure_frame hok
    exact exposure_good_mono h2 (fun b => (exposure_sum_congr h1 b).le) ih
  | step_force_add_validator_account _ hok ih =>
    obtain ⟨h1, h2⟩ := force_add_validator_account_exposure_frame hok
    exact exposure_good_mono h2 (fun b => (exposure_sum_congr h1 b).le) ih
  | step_force_remove_validator_account _ hok ih =>
    obtain ⟨h1, h2⟩ := force_remove_validator_account_exposure_frame hok
    exact exposure_good_mono h2 (fun b => (exposure_sum_congr h1 b).le) ih
  | step_force_set_min_validations _ hok ih =>
    obtain ⟨h1, h2⟩ := force_set_min_validations_exposure_frame hok
    exact exposure_good_mono h2 (fun b => (exposure_sum_congr h1 b).le) ih
  | step_force_set_seller_payout_authority _ hok ih =>
    obtain ⟨h1, h2⟩ := force_set_seller_payout_authority_exposure_frame hok
    exact exposure_good_mono h2 (fun b => (exposure_sum_congr h1 b).le) ih
  | step_set_seller_payout_preference _ hok ih =>
    obtain ⟨h1, h2⟩ := set_seller_payout_preference_exposure_frame hok
    exact exposure_good_mono h2 (fun b => (exposure_sum_congr h1 b).le) ih
  | step_record_payment_to_seller _ hok ih =>
    obtain ⟨h1, h2⟩ := record_payment_to_seller_exposure_frame hok
    exact exposure_good_mono h2 (fun b => (exposure_sum_congr h1 b).le) ih
  | step_force_set_open_order_allowed_limits _ hall hlt hok ih =>
    unfold force_set_open_order_allowed_limits at hok
    cases hok
    refine ⟨fun b => ⟨fun hn => ?_, fun limit hl => ?_⟩, fun limit hl => ?_⟩
    · cases hn
    · injection hl with hl
      subst hl
      exact hall b
    · injection hl with hl
      subst hl
      exact hlt
  | step_force_clear_buy_orders_per_user _ hok ih =>
    obtain ⟨h1, h2⟩ := force_clear_buy_orders_per_user_exposure hok
    exact exposure_good_mono h1 h2 ih
  | step_on_idle hr ih =>
    rename_i s block w rw ww
    rcases on_idle_go_cases block rw ww s.buy_orders s w with heq | ⟨key, bo, _, _, heq⟩
    · unfold on_idle
      rw [heq]
      exact ih
    · unfold on_idle
      rw [heq]
      obtain ⟨h1, h2⟩ := expire_buy_order_exposure s key bo
      exact exposure_good_mono h1 h2 ih

/-- A fully permissive configuration used by the concrete scenarios. -/
def demo_cfg : Cfg where
  kyc_approved := fun _ => true
  get_project_details := fun _ => some (1, 1)
  retire_ok := fun _ _ _ _ _ => true
  min_units_to_create_sell_order := 1
  min_price_per_unit := 1
  max_payment_fee := 100
  max_purchase_fee := 1000
  max_validators := 10
  max_tx_hash_len := 32
  max_open_orders_per_user := 10
  buy_order_expiry_time := 100

/-- A configuration whose KYC allow-list rejects every account. -/
def no_kyc_cfg : Cfg := { demo_cfg with kyc_approved := fun _ => false }

/-- C7 (amended): for every KYC-approved buyer and every order id, a
`create_buy_order` call with `units == 0` is a no-op success, returning the
state unchanged regardless of whether the referenced sell order exists. -/
theorem c7_zero_units_noop (cfg : Cfg) (s : DexState)
    (buyer order_id asset_id max_fee current_block : Nat)
    (hk : cfg.kyc_approved buyer = true) :
    create_buy_order cfg s buyer order_id asset_id 0 max_fee current_block = .ok s := by
  unfold create_buy_order
  simp [hk]

/-- C7 witness: on the demo configuration, buyer 2 with units 0 against the
non-existent order 0 gets a no-op success. -/
theorem c7_zero_units_noop_witness :
    demo_cfg.kyc_approved 2 = true ∧
    create_buy_order demo_cfg init_state 2 0 5 0 7 0 = .ok init_state :=
  ⟨rfl, c7_zero_units_noop demo_cfg init_state 2 0 5 7 0 rfl⟩

/-- C7 counterexample: the KYC check precedes the zero-units early return
(lib.rs 538-542), so a non-approved buyer's `units == 0` call fails with
`KYCAuthorisationFailed` instead of being a no-op success. -/
theorem c7_counterexample :
    create_buy_order no_kyc_cfg init_state 2 0 5 0 7 0
      = .error .KYCAuthorisationFailed := rfl

/-- One sell order of 100 units at price 1 for seller 1, with a generous tier
limit configured. -/
def c4_state : DexState :=
  { init_state with
    order_count := 1,
    orders := [(0, { owner := 1, units := 100, price_per_unit := 1, asset_id := 5 })],
    user_open_order_units_allowed := some 1000 }

/-- C4: reserving all 100 remaining units succeeds but leaves the sell order
stored in the orders map with `units = 0` — the record is written back
unconditionally (lib.rs 654) instead of being removed. -/
theorem c4_zero_unit_order_kept :
    (create_buy_order demo_cfg c4_state 2 0 5 100 1000 0).toOption.map
        (fun s => alookup s.orders 0)
      = some (some { owner := 1, units := 0, price_per_unit := 1, asset_id := 5 }) := rfl

/-- C3 (amended): (1) in every reachable state — where each admin tier-limit
change sets the limit at or above every buyer's current exposure sum and
strictly below the u128 saturating-add bound — every buyer's exposure-index
sum is at most the configured tier limit; (2) with no tier limit configured,
a reservation of positive units can never succeed (missing configuration is a
hard failure, never silently permissive); (3) a reservation of positive units
whose saturated exposure total would exceed the configured limit can never
succeed. -/
theorem c3_exposure_bound :
    (∀ (cfg : Cfg) (s : DexState), Reach cfg s →
      ∀ (buyer limit : Nat), s.user_open_order_units_allowed = some limit →
        exposure_sum s buyer ≤ limit) ∧
    (∀ (cfg : Cfg) (s : DexState)
        (buyer order_id asset_id units max_fee current_block : Nat) (s' : DexState),
      s.user_open_order_units_allowed = none → units ≠ 0 →
      create_buy_order cfg s buyer order_id asset_id units max_fee current_block
        ≠ .ok s') ∧
    (∀ (cfg : Cfg) (s : DexState)
        (buyer order_id asset_id units max_fee current_block allowed : Nat)
        (s' : DexState),
      s.user_open_order_units_allowed = some allowed →
      units ≠ 0 →
      ¬ (sat_add (exposure_sum s buyer) units ≤ allowed) →
      create_buy_order cfg s buyer order_id asset_id units max_fee current_block
        ≠ .ok s') := by
  refine ⟨?_, ?_, ?_⟩
  · intro cfg s h buyer limit hl
    exact ((reach_exposure_good h).1 buyer).2 limit hl
  · intro cfg s buyer order_id asset_id units max_fee current_block s' hnone hunits hok
    obtain ⟨_, hcase⟩ := create_buy_order_exposure hok
    rcases hcase with ⟨hz, _⟩ | ⟨allowed, heq, _, _⟩
    · exact hunits hz
    · rw [hnone] at heq
      cases heq
  · intro cfg s buyer order_id asset_id units max_fee current_block allowed s'
      hsome hunits hexceed hok
    obtain ⟨_, hcase⟩ := create_buy_order_exposure hok
    rcases hcase with ⟨hz, _⟩ | ⟨allowed', heq, hsat, _⟩
    · exact hunits hz
    · rw [hsome] at heq
      injection heq with heq
      subst heq
      exact hexceed hsat

/-- Concrete run against the real operations: configure limit 100, list 100
units, reserve all 100, then the admin lowers the limit to 50. -/
def c3_run : Except DexError DexState := do
  let s1 ← force_set_open_order_allowed_limits init_state .kycLevel1 100
  let s2 ← create_sell_order demo_cfg s1 1 5 100 1
  let s3 ← create_buy_order demo_cfg s2 2 0 5 100 1000 0
  force_set_open_order_allowed_limits s3 .kycLevel1 50

/-- C3 counterexample: after the admin lowers the tier limit below the
buyer's standing exposure, buyer 2's exposure sum is 100 while the stored
limit is 50 — the unconditional invariant of the claim fails. -/
theorem c3_counterexample :
    (c3_run.toOption.map fun s =>
      (exposure_sum s 2, s.user_open_order_units_allowed)) = some (100, some 50) ∧
    ¬ (100 ≤ 50) := ⟨rfl, by decide⟩

/-- Genesis state after the admin configures tier limit 100. -/
def c3_limit_state : DexState :=
  { init_state with
    user_open_order_units_allowed := some 100,
    events := [.UserOpenOrderUnitsLimitUpdated .kycLevel1 100] }

/-- C3 witness: the invariant instantiated at a concrete reachable state, and
the hard-failure parts instantiated at genesis (no limit configured) and at an
exceeding reservation. -/
theorem c3_exposure_bound_witness :
    exposure_sum c3_limit_state 2 ≤ 100 ∧
    create_buy_order demo_cfg init_state 2 0 5 3 9 0 ≠ .ok init_state ∧
    create_buy_order demo_cfg c3_limit_state 2 0 5 101 9 0 ≠ .ok c3_limit_state :=
  ⟨c3_exposure_bound.1 demo_cfg c3_limit_state
      (Reach.step_force_set_open_order_allowed_limits Reach.init
        (fun _ => Nat.zero_le 100) (by decide) rfl) 2 100 rfl,
    c3_exposure_bound.2.1 demo_cfg init_state 2 0 5 3 9 0 init_state rfl
      (by decide),
    c3_exposure_bound.2.2 demo_cfg c3_limit_state 2 0 5 101 9 0 100 c3_limit_state rfl
      (by decide) (by decide)⟩

/-- C8: full case analysis of `record_payment_to_seller` — missing authority,
wrong caller, missing receivable, and over-payment each fail with their
dedicated error (and by the per-call atomicity of the embedding leave the
receivable unchanged); otherwise exactly `payout.amount` is deducted and a
`SellerPayoutExecuted` notification is emitted. -/
theorem c8_record_payment_cases (s : DexState) (authority seller : Nat)
    (payout : PayoutExecutedToSeller) :
    (s.seller_payout_authority = none →
      record_payment_to_seller s authority seller payout
        = .error .SellerPayoutAuthorityNotSet) ∧
    (∀ a, s.seller_payout_authority = some a → authority ≠ a →
      record_payment_to_seller s authority seller payout
        = .error .NotSellerPayoutAuthority) ∧
    (s.seller_payout_authority = some authority →
      alookup s.seller_receivables seller = none →
      record_payment_to_seller s authority seller payout = .error .NoReceivables) ∧
    (∀ r, s.seller_payout_authority = some authority →
      alookup s.seller_receivables seller = some r → r < payout.amount →
      record_payment_to_seller s authority seller payout
        = .error .ReceivableLessThanPayment) ∧
    (∀ r, s.seller_payout_authority = some authority →
      alookup s.seller_receivables seller = some r → payout.amount ≤ r →
      record_payment_to_seller s authority seller payout = .ok
        { s with
          seller_receivables := ainsert s.seller_receivables seller (r - payout.amount),
          events := s.events ++ [.SellerPayoutExecuted seller payout] }) := by
  refine ⟨?_, ?_, ?_, ?_, ?_⟩
  · intro h
    simp [record_payment_to_seller, h]
  · intro a h hne
    simp [record_payment_to_seller, h, hne]
  · intro h hr
    simp [record_payment_to_seller, h, hr]
  · intro r h hr hlt
    simp [record_payment_to_seller, h, hr, checked_sub, Nat.not_le.mpr hlt]
  · intro r h hr hle
    simp [record_payment_to_seller, h, hr, checked_sub, hle]

/-- Concrete payout-ledger state: authority 9, seller 1 owed 50. -/
def c8_state : DexState :=
  { init_state with
    seller_payout_authority := some 9,
    seller_receivables := [(1, 50)] }

/-- C8 witness: all five branches exercised on concrete states. -/
theorem c8_record_payment_cases_witness :
    record_payment_to_seller init_state 9 1 ⟨10⟩ = .error .SellerPayoutAuthorityNotSet ∧
    record_payment_to_seller c8_state 8 1 ⟨10⟩ = .error .NotSellerPayoutAuthority ∧
    record_payment_to_seller c8_state 9 2 ⟨10⟩ = .error .NoReceivables ∧
    record_payment_to_seller c8_state 9 1 ⟨60⟩ = .error .ReceivableLessThanPayment ∧
    record_payment_to_seller c8_state 9 1 ⟨20⟩ = .ok
      { c8_state with
        seller_receivables := ainsert c8_state.seller_receivables 1 (50 - 20),
        events := c8_state.events ++ [.SellerPayoutExecuted 1 ⟨20⟩] } :=
  ⟨(c8_record_payment_cases init_state 9 1 ⟨10⟩).1 rfl,
    (c8_record_payment_cases c8_state 8 1 ⟨10⟩).2.1 9 rfl (by decide),
    (c8_record_payment_cases c8_state 9 2 ⟨10⟩).2.2.1 rfl rfl,
    (c8_record_payment_cases c8_state 9 1 ⟨60⟩).2.2.2.1 50 rfl rfl (by decide),
    (c8_record_payment_cases c8_state 9 1 ⟨20⟩).2.2.2.2 50 rfl rfl (by decide)⟩

/-- C10: paying out the entire receivable keeps the record in storage at value
zero, so a subsequent positive payout for that seller fails with
`ReceivableLessThanPayment`, not `NoReceivables`. -/
theorem c10_full_payout_keeps_zero_receivable (s : DexState)
    (authority seller r p : Nat)
    (hauth : s.seller_payout_authority = some authority)
    (hrec : alookup s.seller_receivables seller = some r)
    (hp : 0 < p) :
    ∃ s', record_payment_to_seller s authority seller ⟨r⟩ = .ok s' ∧
      alookup s'.seller_receivables seller = some 0 ∧
      record_payment_to_seller s' authority seller ⟨p⟩
        = .error .ReceivableLessThanPayment := by
  refine ⟨{ s with
      seller_receivables := ainsert s.seller_receivables seller (r - r),
      events := s.events ++ [.SellerPayoutExecuted seller ⟨r⟩] }, ?_, ?_, ?_⟩
  · simp [record_payment_to_seller, hauth, hrec, checked_sub]
  · rw [show r - r = 0 from Nat.sub_self r]
    exact alookup_ainsert_self _ _ _
  · have hz : alookup (ainsert s.seller_receivables seller 0) seller = some 0 :=
      alookup_ainsert_self _ _ _
    simp [record_payment_to_seller, hauth, hz, checked_sub, Nat.not_le.mpr hp]

/-- C10 witness: seller 1's full 50 is paid out; the receivable stays stored
as zero and a further payment of 7 fails with `ReceivableLessThanPayment`. -/
theorem c10_full_payout_keeps_zero_receivable_witness :
    ∃ s', record_payment_to_seller c8_state 9 1 ⟨50⟩ = .ok s' ∧
      alookup s'.seller_receivables 1 = some 0 ∧
      record_payment_to_seller s' 9 1 ⟨7⟩ = .error .ReceivableLessThanPayment :=
  c10_full_payout_keeps_zero_receivable c8_state 9 1 50 7 rfl rfl (by decide)

/-- C5: on a buy order that already carries a payment attestation, a
conflicting chain id fails with `ChainIdMismatch`, a conflicting proof fails
with `TxProofMismatch`, and a validator already in the attestation's set fails
with `DuplicateValidation`; in each case the call errors, so by the per-call
atomicity of the embedding the order and its attestation are unchanged. -/
theorem c5_conflicting_attestation_rejected (cfg : Cfg) (s : DexState)
    (sender order_id chain_id : Nat) (tx_proof : List Nat)
    (rr : Option (List Nat)) (order : BuyOrderInfo) (p_info : PaymentInfo)
    (hv : sender ∈ s.validator_accounts)
    (ho : alookup s.buy_orders order_id = some order)
    (hpi : order.payment_info = some p_info) :
    (p_info.chain_id ≠ chain_id →
      validate_buy_order cfg s sender order_id chain_id tx_proof rr
        = .error .ChainIdMismatch) ∧
    (p_info.chain_id = chain_id → p_info.tx_proof ≠ tx_proof →
      validate_buy_order cfg s sender order_id chain_id tx_proof rr
        = .error .TxProofMismatch) ∧
    (p_info.chain_id = chain_id → p_info.tx_proof = tx_proof →
      sender ∈ p_info.validators →
      validate_buy_order cfg s sender order_id chain_id tx_proof rr
        = .error .DuplicateValidation) := by
  refine ⟨?_, ?_, ?_⟩
  · intro hne
    simp [validate_buy_order, hv, ho, hpi, hne]
  · intro hc hne
    simp [validate_buy_order, hv, ho, hpi, hc, hne]
  · intro hc ht hmem
    simp [validate_buy_order, hv, ho, hpi, hc, ht, hmem]

/-- Attestation by validator 7 on chain 3 with proof `[9]`. -/
def c5_payment_info : PaymentInfo :=
  { chain_id := 3, tx_proof := [9], validators := [7] }

/-- A buy order of 10 units already carrying `c5_payment_info`. -/
def c5_buy_order : BuyOrderInfo :=
  { order_id := 0, buyer := 2, units := 10, price_per_unit := 1, asset_id := 5,
    total_fee := 1, total_amount := 11, expiry_time := 100,
    payment_info := some c5_payment_info }

/-- Attesting state: validators 7 and 8, sell order 0, and buy order 0
already attested once. -/
def c5_state : DexState :=
  { init_state with
    validator_accounts := [7, 8],
    orders := [(0, { owner := 1, units := 90, price_per_unit := 1, asset_id := 5 })],
    buy_orders := [(0, c5_buy_order)] }

/-- C5 witness: the three rejection branches exercised concretely. -/
theorem c5_conflicting_attestation_rejected_witness :
    validate_buy_order demo_cfg c5_state 8 0 4 [9] none = .error .ChainIdMismatch ∧
    validate_buy_order demo_cfg c5_state 8 0 3 [1] none = .error .TxProofMismatch ∧
    validate_buy_order demo_cfg c5_state 7 0 3 [9] none = .error .DuplicateValidation :=
  ⟨(c5_conflicting_attestation_rejected demo_cfg c5_state 8 0 4 [9] none
      c5_buy_order c5_payment_info (by decide) rfl rfl).1 (by decide),
    (c5_conflicting_attestation_rejected demo_cfg c5_state 8 0 3 [1] none
      c5_buy_order c5_payment_info (by decide) rfl rfl).2.1 rfl (by decide),
    (c5_conflicting_attestation_rejected demo_cfg c5_state 7 0 3 [9] none
      c5_buy_order c5_payment_info (by decide) rfl rfl).2.2 rfl rfl (by decide)⟩

/-- C9: a successful `validate_buy_order` call — settling or not — leaves the
sell-order map completely unchanged: settlement only reads the sell order to
obtain its owner (lib.rs 736-737) and never writes the `Orders` entry. -/
theorem c9_settlement_preserves_sell_orders (cfg : Cfg) (s s' : DexState)
    (sender order_id chain_id : Nat) (tx_proof : List Nat)
    (rr : Option (List Nat))
    (h : validate_buy_order cfg s sender order_id chain_id tx_proof rr = .ok s') :
    s'.orders = s.orders := by
  unfold validate_buy_order at h
  repeat' split at h
  all_goals cases h
  all_goals rfl

/-- C9 witness: validator 8's attestation settles buy order 0 (threshold 2 is
reached) and the sell-order map is untouched. -/
theorem c9_settlement_preserves_sell_orders_witness :
    ∃ s', validate_buy_order demo_cfg c5_state 8 0 3 [9] none = .ok s' ∧
      alookup s'.buy_orders 0 = none ∧ s'.orders = c5_state.orders := by
  have h : validate_buy_order demo_cfg c5_state 8 0 3 [9] none
      = .ok ((validate_buy_order demo_cfg c5_state 8 0 3 [9] none).toOption.getD
        init_state) := by rfl
  exact ⟨_, h, by rfl,
    c9_settlement_preserves_sell_orders demo_cfg c5_state _ 8 0 3 [9] none h⟩

/-- C6: one `on_idle` invocation either changes nothing or removes exactly one
buy order `(key, bo)` from the scanned map whose expiry deadline is strictly
before the block; in that case the order is gone from the map, the units are
credited back onto the referenced sell order when it exists and the add does
not overflow (best-effort: a missing sell order or an overflow leaves the
orders map unchanged without failing the sweep), the `(key, units)` entry is
filtered out of the buyer's exposure index, a `BuyOrderExpired` notification
is appended, and scanning stops at that single removal. -/
theorem c6_sweep_expires_at_most_one (s : DexState) (block w rw ww : Nat) :
    (on_idle s block w rw ww).1 = s ∨
    ∃ key bo, (key, bo) ∈ s.buy_orders ∧ bo.expiry_time < block ∧
      (on_idle s block w rw ww).1 = expire_buy_order s key bo ∧
      alookup (on_idle s block w rw ww).1.buy_orders key = none ∧
      (∀ o u, alookup s.orders bo.order_id = some o →
        checked_add o.units bo.units = some u →
        alookup (on_idle s block w rw ww).1.orders bo.order_id
          = some { o with units := u }) ∧
      (∀ o, alookup s.orders bo.order_id = some o →
        checked_add o.units bo.units = none →
        (on_idle s block w rw ww).1.orders = s.orders) ∧
      (alookup s.orders bo.order_id = none →
        (on_idle s block w rw ww).1.orders = s.orders) ∧
      alookup (on_idle s block w rw ww).1.buy_orders_by_user bo.buyer
        = some (((alookup s.buy_orders_by_user bo.buyer).getD []).filter
            (fun x => decide (x ≠ (key, bo.units)))) ∧
      (on_idle s block w rw ww).1.events
        = s.events ++ [.BuyOrderExpired key bo.order_id bo.units bo.buyer] := by
  unfold on_idle
  rcases on_idle_go_cases block rw ww s.buy_orders s w with heq | ⟨key, bo, hmem, hexp, heq⟩
  · exact Or.inl heq
  · right
    refine ⟨key, bo, hmem, hexp, heq, ?_, ?_, ?_, ?_, ?_, ?_⟩
    · rw [heq]
      exact alookup_aremove_self _ _
    · intro o u ho hu
      rw [heq]
      show alookup (credit_back s.orders bo) bo.order_id = _
      unfold credit_back
      simp only [ho, hu]
      rw [alookup_ainsert_self]
    · intro o ho hu
      rw [heq]
      show credit_back s.orders bo = s.orders
      unfold credit_back
      simp only [ho, hu]
    · intro ho
      rw [heq]
      show credit_back s.orders bo = s.orders
      unfold credit_back
      simp only [ho]
    · rw [heq]
      exact alookup_ainsert_self _ _ _
    · rw [heq]
      rfl

/-- A pending buy order of 60 units with expiry deadline 100. -/
def c6_buy_order : BuyOrderInfo :=
  { order_id := 0, buyer := 2, units := 60, price_per_unit := 1, asset_id := 5,
    total_fee := 1, total_amount := 61, expiry_time := 100, payment_info := none }

/-- State with the expired pending buy order 7 and its originating sell order
at 40 remaining units. -/
def c6_state : DexState :=
  { init_state with
    orders := [(0, { owner := 1, units := 40, price_per_unit := 1, asset_id := 5 })],
    buy_orders := [(7, c6_buy_order)],
    buy_orders_by_user := [(2, [(7, 60)])] }

/-- C6 witness: the sweep characterisation instantiated at block 300 on
`c6_state`. -/
theorem c6_sweep_expires_at_most_one_witness :
    (on_idle c6_state 300 1000 1 1).1 = c6_state ∨
    ∃ key bo, (key, bo) ∈ c6_state.buy_orders ∧ bo.expiry_time < 300 ∧
      (on_idle c6_state 300 1000 1 1).1 = expire_buy_order c6_state key bo ∧
      alookup (on_idle c6_state 300 1000 1 1).1.buy_orders key = none ∧
      (∀ o u, alookup c6_state.orders bo.order_id = some o →
        checked_add o.units bo.units = some u →
        alookup (on_idle c6_state 300 1000 1 1).1.orders bo.order_id
          = some { o with units := u }) ∧
      (∀ o, alookup c6_state.orders bo.order_id = some o →
        checked_add o.units bo.units = none →
        (on_idle c6_state 300 1000 1 1).1.orders = c6_state.orders) ∧
      (alookup c6_state.orders bo.order_id = none →
        (on_idle c6_state 300 1000 1 1).1.orders = c6_state.orders) ∧
      alookup (on_idle c6_state 300 1000 1 1).1.buy_orders_by_user bo.buyer
        = some (((alookup c6_state.buy_orders_by_user bo.buyer).getD []).filter
            (fun x => decide (x ≠ (key, bo.units)))) ∧
      (on_idle c6_state 300 1000 1 1).1.events
        = c6_state.events ++ [.BuyOrderExpired key bo.order_id bo.units bo.buyer] :=
  c6_sweep_expires_at_most_one c6_state 300 1000 1 1

/-- Inversion of a successful u128 checked addition. -/
theorem checked_add_some {a b c : Nat} (h : checked_add a b = some c) : c = a + b := by
  unfold checked_add at h
  split at h
  · injection h with h
    omega
  · cases h

theorem checked_sub_some {a b c : Nat} (h : checked_sub a b = some c) :
    c = a - b ∧ b ≤ a := by
  unfold checked_sub at h
  split at h
  · injection h with h
    omega
  · cases h

/-- The buy order as stored after a first attestation. -/
def with_first_attestation (order : BuyOrderInfo) (chain_id : Nat)
    (tx_proof : List Nat) (sender : Nat) : BuyOrderInfo :=
  { order with
    payment_info := some
      { chain_id := chain_id, tx_proof := tx_proof, validators := [sender] } }

/-- The buy order as stored after a further attestation by `sender`. -/
def with_added_validator (order : BuyOrderInfo) (p_info : PaymentInfo)
    (sender : Nat) : BuyOrderInfo :=
  { order with
    payment_info := some
      { p_info with validators := p_info.validators ++ [sender] } }

/-- C1 (amended): settlement of a buy order happens exactly once — (1) a
successful attest call on an order with no attestation record only creates
the record with that single validator (never settles, even when the
threshold is ≤ 1); on an order with an existing record it settles (order
deleted, receivable credited by total_amount − total_fee, exposure entry
filtered out) precisely when the new attestation count reaches ≥ threshold,
and otherwise only appends the validator; (2) an attest on a deleted (or
never-existing) buy order fails, so settlement cannot happen twice. -/
theorem c1_quorum_settlement_exactly_once :
    (∀ (cfg : Cfg) (s s' : DexState) (sender order_id chain_id : Nat)
        (tx_proof : List Nat) (rr : Option (List Nat)),
      validate_buy_order cfg s sender order_id chain_id tx_proof rr = .ok s' →
      ∃ order, alookup s.buy_orders order_id = some order ∧
        ((order.payment_info = none ∧
          alookup s'.buy_orders order_id
            = some (with_first_attestation order chain_id tx_proof sender) ∧
          s'.seller_receivables = s.seller_receivables ∧
          s'.buy_orders_by_user = s.buy_orders_by_user) ∨
         (∃ p_info, order.payment_info = some p_info ∧
           ((p_info.validators.length + 1 < s.min_payment_validations ∧
             alookup s'.buy_orders order_id
               = some (with_added_validator order p_info sender) ∧
             s'.seller_receivables = s.seller_receivables ∧
             s'.buy_orders_by_user = s.buy_orders_by_user) ∨
            (p_info.validators.length + 1 ≥ s.min_payment_validations ∧
             alookup s'.buy_orders order_id = none ∧
             ∃ sell_order, alookup s.orders order.order_id = some sell_order ∧
               alookup s'.seller_receivables sell_order.owner = some
                 ((alookup s.seller_receivables sell_order.owner).getD 0 +
                   (order.total_amount - order.total_fee)) ∧
               alookup s'.buy_orders_by_user order.buyer = some
                 (((alookup s.buy_orders_by_user order.buyer).getD []).filter
                   (fun x => decide (x ≠ (order_id, order.units))))))))) ∧
    (∀ (cfg : Cfg) (s : DexState) (sender order_id chain_id : Nat)
        (tx_proof : List Nat) (rr : Option (List Nat)) (s' : DexState),
      alookup s.buy_orders order_id = none →
      validate_buy_order cfg s sender order_id chain_id tx_proof rr ≠ .ok s') := by
  constructor
  · intro cfg s s' sender order_id chain_id tx_proof rr h
    unfold validate_buy_order at h
    repeat' split at h
    all_goals cases h
    · rename_i hmem x1 order heq_order x2 p_info heq_pi hchain hproof hdup hcap
        hge x3 sell_order heq_so x4 amt heq_sub x5 newr heq_add x6 pid gid
        heq_proj hret
      refine ⟨order, heq_order, Or.inr ⟨p_info, heq_pi, Or.inr
        ⟨hge, ?_, sell_order, heq_so, ?_, ?_⟩⟩⟩
      · exact alookup_aremove_self _ _
      · show alookup (ainsert s.seller_receivables sell_order.owner newr)
            sell_order.owner = _
        rw [alookup_ainsert_self]
        have h1 := checked_add_some heq_add
        have h2 := (checked_sub_some heq_sub).1
        rw [h1, h2]
      · exact alookup_ainsert_self _ _ _
    · rename_i hmem x1 order heq_order x2 p_info heq_pi hchain hproof hdup hcap hlt
      refine ⟨order, heq_order, Or.inr ⟨p_info, heq_pi, Or.inl
        ⟨by omega, alookup_ainsert_self _ _ _, rfl, rfl⟩⟩⟩
    · rename_i hmem x1 order heq_order x2 heq_pi hcap
      exact ⟨order, heq_order, Or.inl ⟨heq_pi, alookup_ainsert_self _ _ _, rfl, rfl⟩⟩
  · intro cfg s sender order_id chain_id tx_proof rr s' hnone h
    unfold validate_buy_order at h
    rw [hnone] at h
    split at h
    · cases h
    · cases h

/-- A fresh unattested buy order. -/
def c1_buy_order : BuyOrderInfo :=
  { order_id := 0, buyer := 2, units := 10, price_per_unit := 1, asset_id := 5,
    total_fee := 1, total_amount := 11, expiry_time := 100, payment_info := none }

/-- State with quorum threshold set to 1, validator 7 authorised, and the
fresh buy order 0. -/
def c1_state : DexState :=
  { init_state with
    min_payment_validations := 1,
    validator_accounts := [7],
    orders := [(0, { owner := 1, units := 0, price_per_unit := 1, asset_id := 5 })],
    buy_orders := [(0, c1_buy_order)] }

/-- C1 counterexample: with `MinPaymentValidations = 1`, validator 7's first
attestation succeeds and brings the attestation count to 1 ≥ threshold, yet
the buy order is still stored (payment validated but not settled): settlement
does not occur on the call whose count first reaches the threshold. -/
theorem c1_counterexample :
    c1_state.min_payment_validations = 1 ∧
    (validate_buy_order demo_cfg c1_state 7 0 3 [9] none).toOption.map
        (fun s' => (alookup s'.buy_orders 0).map
          (fun o => o.payment_info.map (fun p => p.validators.length)))
      = some (some (some 1)) := ⟨rfl, rfl⟩

/-- C1 witness: the characterisation applied to validator 7's first
attestation on `c1_state`, and the missing-order part applied at genesis. -/
theorem c1_quorum_settlement_exactly_once_witness :
    (∃ s' order, validate_buy_order demo_cfg c1_state 7 0 3 [9] none = .ok s' ∧
      alookup c1_state.buy_orders 0 = some order) ∧
    validate_buy_order demo_cfg init_state 7 0 3 [9] none ≠ .ok init_state := by
  constructor
  · have h : validate_buy_order demo_cfg c1_state 7 0 3 [9] none
        = .ok ((validate_buy_order demo_cfg c1_state 7 0 3 [9] none).toOption.getD
          init_state) := by rfl
    obtain ⟨order, ho, _⟩ :=
      c1_quorum_settlement_exactly_once.1 demo_cfg c1_state _ 7 0 3 [9] none h
    exact ⟨_, order, h, ho⟩
  · exact c1_quorum_settlement_exactly_once.2 demo_cfg init_state 7 0 3 [9] none
      init_state rfl

/-- Inversion of a successful u128 checked multiplication. -/
theorem checked_mul_some {a b c : Nat} (h : checked_mul a b = some c) : c = a * b := by
  unfold checked_mul at h
  split at h
  · injection h with h
    omega
  · cases h

/-- C2: once the pre-fee checks pass (KYC, positive units, existing order,
matching asset, distinct buyer, sufficient remaining units, listable asset)
and the checked arithmetic does not overflow,
`total_fee = ceil(payment_rate × price_per_unit × units) + purchase_fee` and
the call fails with `FeeExceedsUserLimit` exactly when `total_fee > max_fee`;
when additionally the exposure-limit checks pass, the call succeeds and
persists the buy order with exactly this `total_fee` and
`total_amount = total_fee + required`. -/
theorem c2_fee_determinism (cfg : Cfg) (s : DexState)
    (buyer order_id asset_id units max_fee current_block : Nat)
    (order : OrderInfo) (pg1 pg2 : Nat)
    (hk : cfg.kyc_approved buyer = true)
    (hu : units ≠ 0)
    (ho : alookup s.orders order_id = some order)
    (ha : asset_id = order.asset_id)
    (hb : ¬ (buyer = order.owner))
    (hle : units ≤ order.units)
    (hproj : cfg.get_project_details order.asset_id = some (pg1, pg2))
    (hmul : order.price_per_unit * units < U128)
    (hfee : pct_mul_ceil s.payment_fees (order.price_per_unit * units)
      + s.purchase_fees < U128)
    (hamt : pct_mul_ceil s.payment_fees (order.price_per_unit * units)
      + s.purchase_fees + order.price_per_unit * units < U128) :
    (max_fee < pct_mul_ceil s.payment_fees (order.price_per_unit * units)
        + s.purchase_fees →
      create_buy_order cfg s buyer order_id asset_id units max_fee current_block
        = .error .FeeExceedsUserLimit) ∧
    (create_buy_order cfg s buyer order_id asset_id units max_fee current_block
        = .error .FeeExceedsUserLimit →
      max_fee < pct_mul_ceil s.payment_fees (order.price_per_unit * units)
        + s.purchase_fees) ∧
    (∀ allowed,
      pct_mul_ceil s.payment_fees (order.price_per_unit * units)
        + s.purchase_fees ≤ max_fee →
      s.buy_order_count + 1 < U128 →
      current_block + cfg.buy_order_expiry_time < U128 →
      s.user_open_order_units_allowed = some allowed →
      sat_add (exposure_sum s buyer) units ≤ allowed →
      ((alookup s.buy_orders_by_user buyer).getD []).length
        < cfg.max_open_orders_per_user →
      ∃ s', create_buy_order cfg s buyer order_id asset_id units max_fee current_block
          = .ok s' ∧
        alookup s'.buy_orders s.buy_order_count = some
          { order_id := order_id, buyer := buyer, units := units,
            price_per_unit := order.price_per_unit, asset_id := asset_id,
            total_fee := pct_mul_ceil s.payment_fees (order.price_per_unit * units)
              + s.purchase_fees,
            total_amount := pct_mul_ceil s.payment_fees (order.price_per_unit * units)
              + s.purchase_fees + order.price_per_unit * units,
            expiry_time := current_block + cfg.buy_order_expiry_time,
            payment_info := none }) := by
  refine ⟨?_, ?_, ?_⟩
  · intro hlt
    have hcond : ¬ (pct_mul_ceil s.payment_fees (order.price_per_unit * units)
        + s.purchase_fees ≤ max_fee) := Nat.not_le.mpr hlt
    simp [create_buy_order, hk, hu, ho, ha, hb, hle, hproj, checked_sub,
      checked_mul, checked_add, hmul, hfee, hamt, hcond]
  · intro herr
    by_contra hge
    rw [Nat.not_lt] at hge
    simp only [create_buy_order, hk, hu, ho, ha, hb, hle, hproj, checked_sub,
      checked_mul, checked_add, hmul, hfee, hamt, hge, eq_self_iff_true,
      not_true, not_false_iff, if_true, if_false, ite_true, ite_false,
      ge_iff_le, not_le, Nat.lt_irrefl, if_pos, if_neg, Nat.not_lt] at herr
    repeat' split at herr
    all_goals simp at herr
  · intro allowed hfee_ok hcount hexp hlim hsat hlen
    simp only [exposure_sum] at hsat
    have hsat2 : ¬ ¬ (sat_add (((alookup s.buy_orders_by_user buyer).getD
        []).foldl (fun sum val => sum + val.2) 0) units ≤ allowed) :=
      not_not.mpr hsat
    simp only [create_buy_order, hk, hu, ho, ha, hb, hle, hproj, checked_sub,
      checked_mul, checked_add, hmul, hfee, hamt, hfee_ok, hcount, hexp, hlim,
      hsat2, hlen, eq_self_iff_true, not_true, not_false_iff, if_true,
      if_false, ite_true, ite_false, ge_iff_le, not_le, not_lt, not_not]
    exact ⟨_, rfl, alookup_ainsert_self _ _ _⟩

/-- The sell order of the spec's fee-determinism scenario: 200 units at
price 10. -/
def c2_sell_order : OrderInfo :=
  { owner := 1, units := 200, price_per_unit := 10, asset_id := 5 }

/-- State for the fee-determinism scenario: payment fee 10 %, purchase fee
10, tier limit 1000. -/
def c2_state : DexState :=
  { init_state with
    payment_fees := 10,
    purchase_fees := 10,
    order_count := 1,
    orders := [(0, c2_sell_order)],
    user_open_order_units_allowed := some 1000 }

/-- C2 witness: `units = 100, price = 10, rate = 10 %, purchase = 10` gives
`total_fee = 110, total_amount = 1110`; `max_fee = 109` fails with
`FeeExceedsUserLimit` and `max_fee = 110` succeeds. -/
theorem c2_fee_determinism_witness :
    create_buy_order demo_cfg c2_state 2 0 5 100 109 0
      = .error .FeeExceedsUserLimit ∧
    ∃ s', create_buy_order demo_cfg c2_state 2 0 5 100 110 0 = .ok s' ∧
      alookup s'.buy_orders 0 = some
        { order_id := 0, buyer := 2, units := 100, price_per_unit := 10,
          asset_id := 5, total_fee := 110, total_amount := 1110,
          expiry_time := 100, payment_info := none } :=
  ⟨(c2_fee_determinism demo_cfg c2_state 2 0 5 100 109 0 c2_sell_order 1 1
      rfl (by decide) rfl rfl (by decide) (by decide) rfl (by decide)
      (by decide) (by decide)).1 (by decide),
   (c2_fee_determinism demo_cfg c2_state 2 0 5 100 110 0 c2_sell_order 1 1
      rfl (by decide) rfl rfl (by decide) (by decide) rfl (by decide)
      (by decide) (by decide)).2.2 1000 (by decide) (by decide) (by decide)
      rfl (by decide) (by decide)⟩
